import Mathlib

/-!
Verification development for the booking controller of a car-rental
backend (`src/Controller/bookingController.js`).

The controller is a thin request handler over two collections, `Car` and
`Booking`.  We embed it shallowly:

* Calendar dates (the `YYYY-MM-DD` strings of the API and of the stored
  documents) become `DateT`, a triple of integers; the lexicographic
  order on the triple mirrors the lexicographic order on the zero-padded
  ISO strings that the document store compares.
* Clock times (`HH:MM` request strings) become `TimeT`; the 12-hour
  display strings produced by `formatTimeTo12Hour` become `Time12`.
  Because the code stores either shape in the same field, stored time
  fields carry the sum type `TimeVal`.
* JavaScript `Date` instants become integer epoch milliseconds.
  `daysFromCivil` / `civilFromDays` model the proleptic Gregorian
  conversion performed by the platform date type (standard era-based
  civil-day algorithm).
* Each handler becomes a pure function from a request, a database state
  and the current clock to a response paired with the next database
  state.  External collaborators (invoice renderer, notifier) do not
  change the modelled state; the notifier is modelled by returning the
  list of emitted events.
-/

/-- Milliseconds per day, the divisor `1000 * 60 * 60 * 24` of the code. -/
def msPerDay : Int := 1000 * 60 * 60 * 24

/-- A calendar date `YYYY-MM-DD`; the API and the store hold it as a
zero-padded ISO string, which we embed as the integer triple. -/
structure DateT where
  y : Int
  m : Int
  d : Int
deriving DecidableEq

/-- Lexicographic order on dates: exactly the order the document store
uses on the zero-padded `YYYY-MM-DD` strings. -/
def DateT.le (a b : DateT) : Bool :=
  decide (a.y < b.y) ||
    (decide (a.y = b.y) &&
      (decide (a.m < b.m) || (decide (a.m = b.m) && decide (a.d ≤ b.d))))

theorem DateT.le_iff (a b : DateT) :
    DateT.le a b = true ↔
      a.y < b.y ∨ (a.y = b.y ∧ (a.m < b.m ∨ (a.m = b.m ∧ a.d ≤ b.d))) := by
  simp [DateT.le]

/-- A 24-hour clock time `HH:MM`, the shape of request time strings. -/
structure TimeT where
  hh : Int
  mm : Int
deriving DecidableEq

/-- Epoch day number of a civil date (proleptic Gregorian, era-based
civil-day algorithm); models the calendar arithmetic of the platform
date type. -/
def daysFromCivil (y m d : Int) : Int :=
  let yAdj := if m ≤ 2 then y - 1 else y
  let era := Int.fdiv yAdj 400
  let yoe := yAdj - era * 400
  let doy := Int.fdiv (153 * (if 2 < m then m - 3 else m + 9) + 2) 5 + d - 1
  let doe := yoe * 365 + Int.fdiv yoe 4 - Int.fdiv yoe 100 + doy
  era * 146097 + doe - 719468

/-- Civil date of an epoch day number, inverse direction of
`daysFromCivil`; models the date part of `toISOString`. -/
def civilFromDays (z0 : Int) : DateT :=
  let z := z0 + 719468
  let era := Int.fdiv z 146097
  let doe := z - era * 146097
  let yoe :=
    Int.fdiv (doe - Int.fdiv doe 1460 + Int.fdiv doe 36524 - Int.fdiv doe 146096) 365
  let yr := yoe + era * 400
  let doy := doe - (365 * yoe + Int.fdiv yoe 4 - Int.fdiv yoe 100)
  let mp := Int.fdiv (5 * doy + 2) 153
  let dd := doy - Int.fdiv (153 * mp + 2) 5 + 1
  let mm := if mp < 10 then mp + 3 else mp - 9
  ⟨if mm ≤ 2 then yr + 1 else yr, mm, dd⟩

/-- Instant (epoch milliseconds) of `new Date"${date}T${time}:00+05:00"`:
the wall-clock date and time at the fixed UTC+5 offset the code appends
before parsing. -/
def toUTCMillis (dt : DateT) (t : TimeT) : Int :=
  daysFromCivil dt.y dt.m dt.d * msPerDay + t.hh * 3600000 + t.mm * 60000
    - 5 * 3600000

/-- `daysRented` of `bookCar`:
`Math.max(0, Math.ceil((end - start) / (1000*60*60*24) + 1))`. -/
def daysRented (sMs eMs : Int) : Int :=
  max 0 (Int.ceil (((eMs : ℚ) - (sMs : ℚ)) / (1000 * 60 * 60 * 24) + 1))

theorem daysFromCivil_sanity : daysFromCivil 1970 1 1 = 0 ∧
    daysFromCivil 2025 6 1 = 20240 ∧ civilFromDays 20240 = ⟨2025, 6, 1⟩ := by
  decide

/-- Result of `formatTimeTo12Hour`: the `h:mm AM/PM` display string,
embedded as its components (`isPM` encodes the `AM`/`PM` suffix). -/
structure Time12 where
  hour : Int
  minute : Int
  isPM : Bool
deriving DecidableEq

/-- `formatTimeTo12Hour` of `bookCar`: period is `PM` when `hour >= 12`,
displayed hour is `hour % 12 || 12` (JavaScript `||` turns a zero
remainder into 12). -/
def formatTimeTo12Hour (t : TimeT) : Time12 :=
  { hour := if t.hh % 12 == 0 then 12 else t.hh % 12
    minute := t.mm
    isPM := decide (12 ≤ t.hh) }

/-- A stored time field.  `bookCar` writes the 12-hour display string,
while `updateBooking` / `extendBooking` write the raw `HH:MM` request
string into the same field, so the field holds either shape. -/
inductive TimeVal where
  | t12 (t : Time12)
  | t24 (t : TimeT)
deriving DecidableEq

/-- Minutes past midnight denoted by a stored time string. -/
def TimeVal.minutes : TimeVal → Int
  | .t24 t => t.hh * 60 + t.mm
  | .t12 t => (t.hour % 12 + if t.isPM then 12 else 0) * 60 + t.minute

/-- Instant denoted by `new Date"${date}T${time}"` on stored booking
fields: no offset suffix is appended, so the wall-clock value is parsed
as-is. -/
def parseStoredDT (dt : DateT) (t : TimeVal) : Int :=
  daysFromCivil dt.y dt.m dt.d * msPerDay + t.minutes * 60000

/-- The `toLocaleString("en-US", timeZone Asia/Karachi)` round trip of
`updateBooking`: reformat an instant in the Asia/Karachi zone (UTC+5,
no daylight saving) and reparse, i.e. shift by five hours. -/
def karachiShift (ms : Int) : Int :=
  ms + 5 * 3600000

/-- A `Car` document: owner reference, availability flag, daily rate. -/
structure Car where
  id : Nat
  userId : Nat
  availability : String
  rentRate : Int
deriving DecidableEq

/-- A `Booking` document with the fields the controller writes. -/
structure Booking where
  id : Nat
  carId : Nat
  userId : Nat
  showroomId : Nat
  rentalStartDate : DateT
  rentalStartTime : TimeVal
  rentalEndDate : DateT
  rentalEndTime : TimeVal
  totalPrice : Int
deriving DecidableEq

/-- The persisted state: the `Car` and `Booking` collections. -/
structure DB where
  cars : List Car
  bookings : List Booking
deriving DecidableEq

/-- A JSON response: HTTP status, message, and the optional booking and
invoice URL of the success payloads. -/
structure Response where
  status : Nat
  message : String
  booking : Option Booking := none
  invoiceUrl : Option String := none
deriving DecidableEq

/-- An event published on the real-time notifier:
`io.emit(channel, payload-message)`. -/
structure Emission where
  channel : String
  message : String
deriving DecidableEq

/-- A BSON value as far as the queries of this controller distinguish
them: ids, strings of either date shape, stored times, numbers, and the
`Date` instants `updateBooking` passes as query operands. -/
inductive DVal where
  | natV (n : Nat)
  | intV (n : Int)
  | strV (s : String)
  | dateV (dt : DateT)
  | timeV (t : TimeVal)
  | instV (ms : Int)
deriving DecidableEq

/-- A stored document: its field names paired with their values. -/
def Doc : Type := List (String × DVal)

/-- Field lookup in a document. -/
def lookupField (doc : Doc) (k : String) : Option DVal :=
  (doc.find? (fun p => p.1 == k)).map (fun p => p.2)

/-- The document a stored `Booking` record presents to queries: exactly
the field names the schema stores (there is no `rentalStart` or
`rentalEnd` field). -/
def bookingToDoc (b : Booking) : Doc :=
  [("_id", DVal.natV b.id),
   ("carId", DVal.natV b.carId),
   ("userId", DVal.natV b.userId),
   ("showroomId", DVal.natV b.showroomId),
   ("rentalStartDate", DVal.dateV b.rentalStartDate),
   ("rentalStartTime", DVal.timeV b.rentalStartTime),
   ("rentalEndDate", DVal.dateV b.rentalEndDate),
   ("rentalEndTime", DVal.timeV b.rentalEndTime),
   ("totalPrice", DVal.intV b.totalPrice)]

/-- `field: { $lte: instant }` with a `Date` operand: matches only a
document that has the field with an instant value at most the operand;
a missing field never matches a `Date`-typed comparison. -/
def docLteInst (doc : Doc) (k : String) (ms : Int) : Bool :=
  match lookupField doc k with
  | some (DVal.instV v) => decide (v ≤ ms)
  | _ => false

/-- `field: { $gte: instant }` with a `Date` operand, as `docLteInst`. -/
def docGteInst (doc : Doc) (k : String) (ms : Int) : Bool :=
  match lookupField doc k with
  | some (DVal.instV v) => decide (ms ≤ v)
  | _ => false

/-- `field: id` equality against a numeric id. -/
def docEqNat (doc : Doc) (k : String) (n : Nat) : Bool :=
  match lookupField doc k with
  | some (DVal.natV v) => v == n
  | _ => false

/-- The overlap re-check filter of `updateBooking` (lines 355-364):
same car, different id, and the single `$or` clause
`rentalStart <= updatedLocalEnd` and `rentalEnd >= updatedLocalStart` —
on the field names `rentalStart` / `rentalEnd`. -/
def docMatchesUpdateOverlap (doc : Doc) (selfId carId : Nat)
    (endMs startMs : Int) : Bool :=
  docEqNat doc "carId" carId && !(docEqNat doc "_id" selfId) &&
    (docLteInst doc "rentalStart" endMs && docGteInst doc "rentalEnd" startMs)

/-- The `$or` of the `bookCar` overlap query (lines 42-56) against a
stored booking, with the new range `[ns, ne]`: (existing start at most
new end and existing end at least new start), or (existing start inside
the new range), or (existing end inside the new range). -/
def bookOverlapPred (b : Booking) (ns ne : DateT) : Bool :=
  (DateT.le b.rentalStartDate ne && DateT.le ns b.rentalEndDate) ||
    (DateT.le ns b.rentalStartDate && DateT.le b.rentalStartDate ne) ||
    (DateT.le ns b.rentalEndDate && DateT.le b.rentalEndDate ne)

/-- The single interval-overlap predicate named by the specification:
`existing.start <= new.end AND existing.end >= new.start`. -/
def singleOverlapPred (es ee ns ne : DateT) : Bool :=
  DateT.le es ne && DateT.le ns ee

/-- The `bookCar` request body, plus the `protocol` / `host` request
attributes used to derive the invoice URL.  Body fields are optional:
the handler rejects the request when any is missing. -/
structure BookReq where
  carId : Option Nat
  showroomId : Option Nat
  rentalStartDate : Option DateT
  rentalStartTime : Option TimeT
  rentalEndDate : Option DateT
  rentalEndTime : Option TimeT
  protocol : String
  host : String
deriving DecidableEq

/-- The invoice URL
`protocol://host/api/bookcar/invoices/invoice_{id}.pdf`. -/
def invoiceUrlFor (protocol host : String) (id : Nat) : String :=
  protocol ++ "://" ++ host ++ "/api/bookcar/invoices/invoice_"
    ++ toString id ++ ".pdf"

/-- `bookCar`: validate presence of all fields, resolve the car, reject
an unavailable car, reject a date-overlapping booking of the same car,
parse the range at the fixed UTC+5 offset, reject a past start or an
end before the start, price the rental, persist the booking with the
ISO-formatted dates and 12-hour times, flip the car to `Rented Out`,
and answer 201 with the booking and the invoice URL.  `freshId` stands
for the id the store assigns to the inserted document; the external
invoice render leaves the modelled state unchanged. -/
def bookCar (req : BookReq) (userId : Nat) (db : DB) (nowMs : Int)
    (freshId : Nat) : Response × DB :=
  match req.carId, req.showroomId, req.rentalStartDate, req.rentalStartTime,
      req.rentalEndDate, req.rentalEndTime with
  | some carId, some showroomId, some rsd, some rstT, some red, some redT =>
    match db.cars.find? (fun c => c.id == carId) with
    | none => ({ status := 404, message := "Car not found." }, db)
    | some car =>
      if car.availability != "Available" then
        ({ status := 400, message := "Car is not available for booking." }, db)
      else
        match db.bookings.find?
            (fun b => b.carId == carId && bookOverlapPred b rsd red) with
        | some _ =>
          ({ status := 400,
             message := "The car is already booked for the selected dates." },
           db)
        | none =>
          let rentalStartDateis := toUTCMillis rsd rstT
          let rentalEndDateis := toUTCMillis red redT
          if rentalStartDateis < nowMs then
            ({ status := 400,
               message := "Rental start date must be in the present or future." },
             db)
          else if rentalEndDateis < rentalStartDateis then
            ({ status := 400,
               message := "End date must be after the start date." }, db)
          else
            let totalPrice := daysRented rentalStartDateis rentalEndDateis
              * car.rentRate
            let newBooking : Booking :=
              { id := freshId
                carId := carId
                userId := userId
                showroomId := showroomId
                rentalStartDate :=
                  civilFromDays (Int.fdiv rentalStartDateis msPerDay)
                rentalStartTime := TimeVal.t12 (formatTimeTo12Hour rstT)
                rentalEndDate :=
                  civilFromDays (Int.fdiv rentalEndDateis msPerDay)
                rentalEndTime := TimeVal.t12 (formatTimeTo12Hour redT)
                totalPrice := totalPrice }
            let db1 : DB := { db with bookings := db.bookings ++ [newBooking] }
            let db2 : DB :=
              { db1 with
                cars := db1.cars.map (fun c =>
                  if c.id == carId then { c with availability := "Rented Out" }
                  else c) }
            ({ status := 201
               message := "Car booked successfully"
               booking := some newBooking
               invoiceUrl := some (invoiceUrlFor req.protocol req.host freshId) },
             db2)
  | _, _, _, _, _, _ =>
    ({ status := 400, message := "All fields are required." }, db)

/-- The `updateBooking` request body: optional overrides for any of the
four range fields. -/
structure UpdateReq where
  rentalStartDate : Option DateT
  rentalEndDate : Option DateT
  rentalStartTime : Option TimeT
  rentalEndTime : Option TimeT
deriving DecidableEq

/-- Field-by-field override of a booking by an `updateBooking` request,
in the order of the source; a provided time is stored as the raw
`HH:MM` request string. -/
def applyBookingUpdates (b : Booking) (req : UpdateReq) : Booking :=
  let b1 := match req.rentalStartDate with
    | some v => { b with rentalStartDate := v }
    | none => b
  let b2 := match req.rentalEndDate with
    | some v => { b1 with rentalEndDate := v }
    | none => b1
  let b3 := match req.rentalStartTime with
    | some v => { b2 with rentalStartTime := TimeVal.t24 v }
    | none => b2
  match req.rentalEndTime with
  | some v => { b3 with rentalEndTime := TimeVal.t24 v }
  | none => b3

/-- `updateBooking`: resolve the booking, reject once the (Karachi
shifted) clock has reached the stored start, apply the overrides,
reject an end at most the start and a start not strictly later than the
previous start, run the overlap re-check on the `rentalStart` /
`rentalEnd` field names against the stored documents, resolve the
populated car, reprice, and persist.  The car is resolved where its
fields are first needed; populating it at the initial read does not
change any modelled branch. -/
def updateBooking (db : DB) (bookingId : Nat) (req : UpdateReq)
    (nowMs : Int) : Response × DB :=
  match db.bookings.find? (fun b => b.id == bookingId) with
  | none => ({ status := 404, message := "Booking not found" }, db)
  | some booking =>
    let localCurrentTime := karachiShift nowMs
    let localRentalStart :=
      karachiShift (parseStoredDT booking.rentalStartDate booking.rentalStartTime)
    if localRentalStart ≤ localCurrentTime then
      ({ status := 400,
         message := "You can only update the booking before the rental start time." },
       db)
    else
      let previousRentalStart := localRentalStart
      let b1 := applyBookingUpdates booking req
      let updatedLocalStart :=
        karachiShift (parseStoredDT b1.rentalStartDate b1.rentalStartTime)
      let updatedLocalEnd :=
        karachiShift (parseStoredDT b1.rentalEndDate b1.rentalEndTime)
      if updatedLocalEnd ≤ updatedLocalStart then
        ({ status := 400,
           message := "Rental end time must be after the rental start time." },
         db)
      else if updatedLocalStart ≤ previousRentalStart then
        ({ status := 400,
           message := "New rental start time must be after the previous rental start time." },
         db)
      else
        match (db.bookings.map bookingToDoc).find? (fun doc =>
            docMatchesUpdateOverlap doc bookingId booking.carId
              updatedLocalEnd updatedLocalStart) with
        | some _ =>
          ({ status := 400,
             message := "The car is already booked for the selected dates." },
           db)
        | none =>
          match db.cars.find? (fun c => c.id == booking.carId) with
          | none => ({ status := 404, message := "Car not found" }, db)
          | some car =>
            let b2 :=
              { b1 with totalPrice :=
                  daysRented updatedLocalStart updatedLocalEnd * car.rentRate }
            ({ status := 200, message := "Booking updated successfully",
               booking := some b2 },
             { db with bookings := db.bookings.map (fun x =>
                 if x.id == bookingId then b2 else x) })

/-- The `extendBooking` request body, plus the request attributes for
the invoice URL. -/
structure ExtendReq where
  rentalEndDate : Option DateT
  rentalEndTime : Option TimeT
  protocol : String
  host : String
deriving DecidableEq

/-- `extendBooking`: resolve the booking, reject once the clock has
reached the stored start, apply the end overrides (format checks of the
raw strings are subsumed by the typed embedding), reject an end at most
the start, run the overlap re-check on the correctly named date fields,
reprice through the populated car (a missing car faults into the 500
handler), reject a non-positive price, persist, and answer 200 with the
invoice URL. -/
def extendBooking (db : DB) (bookingId : Nat) (req : ExtendReq)
    (nowMs : Int) : Response × DB :=
  match db.bookings.find? (fun b => b.id == bookingId) with
  | none => ({ status := 404, message := "Booking not found" }, db)
  | some booking =>
    let rentalStartDT :=
      parseStoredDT booking.rentalStartDate booking.rentalStartTime
    if rentalStartDT ≤ nowMs then
      ({ status := 400,
         message := "You can only extend the booking before the rental start time." },
       db)
    else
      let b1 := match req.rentalEndDate with
        | some v => { booking with rentalEndDate := v }
        | none => booking
      let b2 := match req.rentalEndTime with
        | some v => { b1 with rentalEndTime := TimeVal.t24 v }
        | none => b1
      let updatedEnd := parseStoredDT b2.rentalEndDate b2.rentalEndTime
      if updatedEnd ≤ rentalStartDT then
        ({ status := 400,
           message := "Rental end time must be after the rental start time." },
         db)
      else
        match db.bookings.find? (fun x =>
            x.carId == booking.carId && !(x.id == bookingId) &&
              (DateT.le x.rentalStartDate b2.rentalEndDate &&
                DateT.le b2.rentalStartDate x.rentalEndDate)) with
        | some _ =>
          ({ status := 400,
             message := "The car is already booked for the selected dates." },
           db)
        | none =>
          match db.cars.find? (fun c => c.id == booking.carId) with
          | none => ({ status := 500, message := "Error extending booking" }, db)
          | some car =>
            let totalPrice := daysRented rentalStartDT updatedEnd * car.rentRate
            if totalPrice ≤ 0 then
              ({ status := 400, message := "Failed to calculate total price." },
               db)
            else
              let b3 := { b2 with totalPrice := totalPrice }
              ({ status := 200, message := "Booking extended successfully",
                 booking := some b3,
                 invoiceUrl :=
                   some (invoiceUrlFor req.protocol req.host bookingId) },
               { db with bookings := db.bookings.map (fun x =>
                   if x.id == bookingId then b3 else x) })

/-- `cancelBooking`: resolve the booking by id and requesting user
(one 404 covers both not-found and not-owned), set the car back to
`Available` when it resolves, delete the booking, answer 200. -/
def cancelBooking (db : DB) (bookingId userId : Nat) : Response × DB :=
  match db.bookings.find? (fun b => b.id == bookingId && b.userId == userId) with
  | none =>
    ({ status := 404, message := "Booking not found or unauthorized access." },
     db)
  | some booking =>
    let db1 : DB :=
      match db.cars.find? (fun c => c.id == booking.carId) with
      | some _ =>
        { db with cars := db.cars.map (fun c =>
            if c.id == booking.carId then { c with availability := "Available" }
            else c) }
      | none => db
    ({ status := 200, message := "Booking canceled successfully." },
     { db1 with bookings := db1.bookings.filter (fun b => !(b.id == bookingId)) })

/-- `Return_car`: resolve the booking and the car, publish one event on
the channel `notification{car.userId}` with the fixed payload, answer
200; no collection is written.  The result carries the list of events
the notifier received. -/
def Return_car (db : DB) (bookingId : Nat) : Response × List Emission × DB :=
  match db.bookings.find? (fun b => b.id == bookingId) with
  | none => ({ status := 404, message := "Booking not found" }, [], db)
  | some booking =>
    match db.cars.find? (fun c => c.id == booking.carId) with
    | none => ({ status := 404, message := "car not found" }, [], db)
    | some car =>
      ({ status := 200,
         message := "Return request sent to showroom  owner for approved" },
       [{ channel := "notification" ++ toString car.userId,
          message := "Car return request recieved" }],
       db)

theorem daysFromCivil_add_two (y m d : Int) :
    daysFromCivil y m (d + 2) = daysFromCivil y m d + 2 := by
  simp only [daysFromCivil]
  ring

/-- Claim C1: for well-formed intervals, the three-clause `$or` of the
`bookCar` overlap query coincides with the single symmetric
interval-intersection predicate
`existing.start <= new.end AND existing.end >= new.start`. -/
theorem bookCar_overlap_equiv (b : Booking) (ns ne : DateT)
    (hex : DateT.le b.rentalStartDate b.rentalEndDate = true)
    (hnew : DateT.le ns ne = true) :
    bookOverlapPred b ns ne =
      singleOverlapPred b.rentalStartDate b.rentalEndDate ns ne := by
  rw [Bool.eq_iff_iff]
  simp only [bookOverlapPred, singleOverlapPred, Bool.or_eq_true,
    Bool.and_eq_true, DateT.le_iff] at *
  omega

theorem bookCar_overlap_equiv_witness :
    DateT.le ⟨2025, 6, 1⟩ ⟨2025, 6, 3⟩ = true ∧
      DateT.le ⟨2025, 6, 2⟩ ⟨2025, 6, 4⟩ = true ∧
      bookOverlapPred
          { id := 1, carId := 1, userId := 1, showroomId := 1,
            rentalStartDate := ⟨2025, 6, 1⟩,
            rentalStartTime := TimeVal.t24 ⟨10, 0⟩,
            rentalEndDate := ⟨2025, 6, 3⟩,
            rentalEndTime := TimeVal.t24 ⟨10, 0⟩, totalPrice := 300 }
          ⟨2025, 6, 2⟩ ⟨2025, 6, 4⟩ =
        singleOverlapPred ⟨2025, 6, 1⟩ ⟨2025, 6, 3⟩ ⟨2025, 6, 2⟩ ⟨2025, 6, 4⟩ :=
  ⟨by decide, by decide,
    bookCar_overlap_equiv
      { id := 1, carId := 1, userId := 1, showroomId := 1,
        rentalStartDate := ⟨2025, 6, 1⟩,
        rentalStartTime := TimeVal.t24 ⟨10, 0⟩,
        rentalEndDate := ⟨2025, 6, 3⟩,
        rentalEndTime := TimeVal.t24 ⟨10, 0⟩, totalPrice := 300 }
      ⟨2025, 6, 2⟩ ⟨2025, 6, 4⟩ (by decide) (by decide)⟩

/-- Claim C3: `daysRented` is the ceiling of the day-difference plus
one inclusive day, floored at zero; a same-date same-time range counts
one day, and a range from a day to two calendar days later at the same
time counts three days. -/
theorem daysRented_inclusive :
    (∀ sMs eMs : Int,
        daysRented sMs eMs =
          max 0 (Int.ceil (((eMs : ℚ) - (sMs : ℚ)) / (msPerDay : ℚ)) + 1)) ∧
      (∀ (dt : DateT) (t : TimeT),
        daysRented (toUTCMillis dt t) (toUTCMillis dt t) = 1) ∧
      (∀ (y m d : Int) (t : TimeT),
        daysRented (toUTCMillis ⟨y, m, d⟩ t) (toUTCMillis ⟨y, m, d + 2⟩ t) = 3) := by
  refine ⟨?_, ?_, ?_⟩
  · intro sMs eMs
    unfold daysRented msPerDay
    rw [Int.ceil_add_one]
    norm_num
  · intro dt t
    simp [daysRented]
  · intro y m d t
    have h : toUTCMillis ⟨y, m, d + 2⟩ t = toUTCMillis ⟨y, m, d⟩ t + 2 * msPerDay := by
      simp only [toUTCMillis, daysFromCivil_add_two]
      ring
    rw [h]
    unfold daysRented msPerDay
    push_cast
    ring_nf
    norm_num

theorem daysRented_pos_of_le (sMs eMs : Int) (h : sMs ≤ eMs) :
    0 < daysRented sMs eMs := by
  unfold daysRented
  have hq : (sMs : ℚ) ≤ (eMs : ℚ) := by exact_mod_cast h
  have h0 : (0 : ℚ) ≤ ((eMs : ℚ) - (sMs : ℚ)) / (1000 * 60 * 60 * 24) := by
    apply div_nonneg
    · exact sub_nonneg.mpr hq
    · norm_num
  have h1 : 1 ≤ Int.ceil (((eMs : ℚ) - (sMs : ℚ)) / (1000 * 60 * 60 * 24) + 1) := by
    rw [Int.one_le_ceil_iff]
    linarith
  omega

theorem find?_map_of_pred_comm {α : Type} (g : α → α) (p : α → Bool)
    (hp : ∀ x, p (g x) = p x) (l : List α) :
    (l.map g).find? p = (l.find? p).map g := by
  induction l with
  | nil => rfl
  | cons a l ih =>
    by_cases h : p a = true
    · simp [List.find?_cons, hp, h]
    · simp only [Bool.not_eq_true] at h
      simp [List.find?_cons, hp, h, ih]

/-- Sample car, available, rate 100 per day. -/
def carAvail : Car :=
  { id := 1, userId := 9, availability := "Available", rentRate := 100 }

/-- Sample car, already rented out. -/
def carRented : Car :=
  { id := 1, userId := 9, availability := "Rented Out", rentRate := 100 }

/-- Sample store holding the available car and no bookings. -/
def dbAvail : DB := { cars := [carAvail], bookings := [] }

/-- Sample store holding the rented-out car and no bookings. -/
def dbRented : DB := { cars := [carRented], bookings := [] }

/-- Sample `bookCar` request for car 1, 2025-06-01 10:00 to
2025-06-03 10:00. -/
def reqSample : BookReq :=
  { carId := some 1, showroomId := some 2,
    rentalStartDate := some ⟨2025, 6, 1⟩, rentalStartTime := some ⟨10, 0⟩,
    rentalEndDate := some ⟨2025, 6, 3⟩, rentalEndTime := some ⟨10, 0⟩,
    protocol := "http", host := "localhost" }

/-- Claim C5: on an available car, over a valid range that overlaps no
existing booking of that car, `bookCar` answers 201, persists the new
booking, flips the car from `Available` to `Rented Out`, and returns
the booking together with the derived invoice URL. -/
theorem bookCar_success (req : BookReq) (userId : Nat) (db : DB) (nowMs : Int)
    (freshId carId showroomId : Nat) (rsd red : DateT) (rstT redT : TimeT)
    (car : Car)
    (h1 : req.carId = some carId) (h2 : req.showroomId = some showroomId)
    (h3 : req.rentalStartDate = some rsd) (h4 : req.rentalStartTime = some rstT)
    (h5 : req.rentalEndDate = some red) (h6 : req.rentalEndTime = some redT)
    (hcar : db.cars.find? (fun c => c.id == carId) = some car)
    (havail : car.availability = "Available")
    (hover : db.bookings.find?
        (fun b => b.carId == carId && bookOverlapPred b rsd red) = none)
    (hpast : ¬ toUTCMillis rsd rstT < nowMs)
    (horder : ¬ toUTCMillis red redT < toUTCMillis rsd rstT) :
    (bookCar req userId db nowMs freshId).1.status = 201 ∧
      (∃ nb : Booking,
        (bookCar req userId db nowMs freshId).1.booking = some nb ∧
          nb ∈ (bookCar req userId db nowMs freshId).2.bookings ∧
          nb.carId = carId ∧ nb.userId = userId) ∧
      (bookCar req userId db nowMs freshId).2.cars.find?
          (fun c => c.id == carId) =
        some { car with availability := "Rented Out" } ∧
      (bookCar req userId db nowMs freshId).1.invoiceUrl =
        some (invoiceUrlFor req.protocol req.host freshId) := by
  have hbook : bookCar req userId db nowMs freshId =
      ({ status := 201
         message := "Car booked successfully"
         booking := some
           { id := freshId, carId := carId, userId := userId,
             showroomId := showroomId,
             rentalStartDate :=
               civilFromDays (Int.fdiv (toUTCMillis rsd rstT) msPerDay),
             rentalStartTime := TimeVal.t12 (formatTimeTo12Hour rstT),
             rentalEndDate :=
               civilFromDays (Int.fdiv (toUTCMillis red redT) msPerDay),
             rentalEndTime := TimeVal.t12 (formatTimeTo12Hour redT),
             totalPrice :=
               daysRented (toUTCMillis rsd rstT) (toUTCMillis red redT)
                 * car.rentRate }
         invoiceUrl := some (invoiceUrlFor req.protocol req.host freshId) },
       { cars := db.cars.map (fun c =>
           if c.id == carId then { c with availability := "Rented Out" } else c)
         bookings := db.bookings ++
           [{ id := freshId, carId := carId, userId := userId,
              showroomId := showroomId,
              rentalStartDate :=
                civilFromDays (Int.fdiv (toUTCMillis rsd rstT) msPerDay),
              rentalStartTime := TimeVal.t12 (formatTimeTo12Hour rstT),
              rentalEndDate :=
                civilFromDays (Int.fdiv (toUTCMillis red redT) msPerDay),
              rentalEndTime := TimeVal.t12 (formatTimeTo12Hour redT),
              totalPrice :=
                daysRented (toUTCMillis rsd rstT) (toUTCMillis red redT)
                  * car.rentRate }] }) := by
    unfold bookCar
    rw [h1, h2, h3, h4, h5, h6]
    simp only [hcar, havail, hover, bne_self_eq_false, Bool.false_eq_true,
      if_false, if_neg hpast, if_neg horder]
  refine ⟨by rw [hbook], ⟨_, by rw [hbook], by rw [hbook]; simp, rfl, rfl⟩, ?_, by rw [hbook]⟩
  rw [hbook]
  have hcomm : ∀ c : Car,
      ((fun c => c.id == carId)
        (if c.id == carId then { c with availability := "Rented Out" } else c)) =
        ((fun c => c.id == carId) c) := by
    intro c
    by_cases h : c.id == carId <;> simp [h]
  rw [find?_map_of_pred_comm _ _ hcomm, hcar]
  have hid : (car.id == carId) = true :=
    @List.find?_some Car (fun c => c.id == carId) car db.cars hcar
  have hid2 : car.id = carId := by simpa using hid
  simp [hid2]

theorem bookCar_success_witness :
    (bookCar reqSample 7 dbAvail 0 99).1.status = 201 ∧
      (∃ nb : Booking,
        (bookCar reqSample 7 dbAvail 0 99).1.booking = some nb ∧
          nb ∈ (bookCar reqSample 7 dbAvail 0 99).2.bookings ∧
          nb.carId = 1 ∧ nb.userId = 7) ∧
      (bookCar reqSample 7 dbAvail 0 99).2.cars.find? (fun c => c.id == 1) =
        some { carAvail with availability := "Rented Out" } ∧
      (bookCar reqSample 7 dbAvail 0 99).1.invoiceUrl =
        some (invoiceUrlFor reqSample.protocol reqSample.host 99) :=
  bookCar_success reqSample 7 dbAvail 0 99 1 2 ⟨2025, 6, 1⟩ ⟨2025, 6, 3⟩
    ⟨10, 0⟩ ⟨10, 0⟩ carAvail rfl rfl rfl rfl rfl rfl (by decide) rfl rfl
    (by decide) (by decide)

/-- Claim C4: on the success path, the persisted and returned booking
carries `totalPrice = daysRented * car.rentRate` exactly, for positive
rate and day count. -/
theorem bookCar_totalPrice (req : BookReq) (userId : Nat) (db : DB)
    (nowMs : Int) (freshId carId showroomId : Nat) (rsd red : DateT)
    (rstT redT : TimeT) (car : Car)
    (h1 : req.carId = some carId) (h2 : req.showroomId = some showroomId)
    (h3 : req.rentalStartDate = some rsd) (h4 : req.rentalStartTime = some rstT)
    (h5 : req.rentalEndDate = some red) (h6 : req.rentalEndTime = some redT)
    (hcar : db.cars.find? (fun c => c.id == carId) = some car)
    (havail : car.availability = "Available")
    (hover : db.bookings.find?
        (fun b => b.carId == carId && bookOverlapPred b rsd red) = none)
    (hpast : ¬ toUTCMillis rsd rstT < nowMs)
    (horder : ¬ toUTCMillis red redT < toUTCMillis rsd rstT)
    (hrate : 0 < car.rentRate)
    (hdays : 0 < daysRented (toUTCMillis rsd rstT) (toUTCMillis red redT)) :
    ∃ nb : Booking,
      (bookCar req userId db nowMs freshId).1.booking = some nb ∧
        nb ∈ (bookCar req userId db nowMs freshId).2.bookings ∧
        nb.totalPrice =
          daysRented (toUTCMillis rsd rstT) (toUTCMillis red redT)
            * car.rentRate := by
  have hbook : bookCar req userId db nowMs freshId =
      ({ status := 201
         message := "Car booked successfully"
         booking := some
           { id := freshId, carId := carId, userId := userId,
             showroomId := showroomId,
             rentalStartDate :=
               civilFromDays (Int.fdiv (toUTCMillis rsd rstT) msPerDay),
             rentalStartTime := TimeVal.t12 (formatTimeTo12Hour rstT),
             rentalEndDate :=
               civilFromDays (Int.fdiv (toUTCMillis red redT) msPerDay),
             rentalEndTime := TimeVal.t12 (formatTimeTo12Hour redT),
             totalPrice :=
               daysRented (toUTCMillis rsd rstT) (toUTCMillis red redT)
                 * car.rentRate }
         invoiceUrl := some (invoiceUrlFor req.protocol req.host freshId) },
       { cars := db.cars.map (fun c =>
           if c.id == carId then { c with availability := "Rented Out" } else c)
         bookings := db.bookings ++
           [{ id := freshId, carId := carId, userId := userId,
              showroomId := showroomId,
              rentalStartDate :=
                civilFromDays (Int.fdiv (toUTCMillis rsd rstT) msPerDay),
              rentalStartTime := TimeVal.t12 (formatTimeTo12Hour rstT),
              rentalEndDate :=
                civilFromDays (Int.fdiv (toUTCMillis red redT) msPerDay),
              rentalEndTime := TimeVal.t12 (formatTimeTo12Hour redT),
              totalPrice :=
                daysRented (toUTCMillis rsd rstT) (toUTCMillis red redT)
                  * car.rentRate }] }) := by
    unfold bookCar
    rw [h1, h2, h3, h4, h5, h6]
    simp only [hcar, havail, hover, bne_self_eq_false, Bool.false_eq_true,
      if_false, if_neg hpast, if_neg horder]
  exact ⟨_, by rw [hbook], by rw [hbook]; simp, rfl⟩

theorem bookCar_totalPrice_witness :
    ∃ nb : Booking,
      (bookCar reqSample 7 dbAvail 0 99).1.booking = some nb ∧
        nb ∈ (bookCar reqSample 7 dbAvail 0 99).2.bookings ∧
        nb.totalPrice =
          daysRented (toUTCMillis ⟨2025, 6, 1⟩ ⟨10, 0⟩)
            (toUTCMillis ⟨2025, 6, 3⟩ ⟨10, 0⟩) * carAvail.rentRate :=
  bookCar_totalPrice reqSample 7 dbAvail 0 99 1 2 ⟨2025, 6, 1⟩ ⟨2025, 6, 3⟩
    ⟨10, 0⟩ ⟨10, 0⟩ carAvail rfl rfl rfl rfl rfl rfl (by decide) rfl rfl
    (by decide) (by decide) (by decide)
    (daysRented_pos_of_le _ _ (by decide))







/-- Claim C8 counterexample: for a request on an existing car whose
availability is `Rented Out`, `bookCar` answers HTTP 400 — not the
409-class status the claim asserts. -/
theorem bookCar_unavailable_not_409 :
    dbRented.cars.find? (fun c => c.id == 1) = some carRented ∧
      carRented.availability ≠ "Available" ∧
      (bookCar reqSample 7 dbRented 0 99).1.status = 400 ∧
      (bookCar reqSample 7 dbRented 0 99).1.status ≠ 409 := by
  decide

/-- Claim C8 (amended): when the referenced car exists and its
availability is not `Available`, `bookCar` fails with HTTP 400 (a
client error) and the unavailability message, and performs no write. -/
theorem bookCar_unavailable (req : BookReq) (userId : Nat) (db : DB)
    (nowMs : Int) (freshId carId showroomId : Nat) (rsd red : DateT)
    (rstT redT : TimeT) (car : Car)
    (h1 : req.carId = some carId) (h2 : req.showroomId = some showroomId)
    (h3 : req.rentalStartDate = some rsd) (h4 : req.rentalStartTime = some rstT)
    (h5 : req.rentalEndDate = some red) (h6 : req.rentalEndTime = some redT)
    (hcar : db.cars.find? (fun c => c.id == carId) = some car)
    (hneq : car.availability ≠ "Available") :
    (bookCar req userId db nowMs freshId).1.status = 400 ∧
      (bookCar req userId db nowMs freshId).1.message =
        "Car is not available for booking." ∧
      (bookCar req userId db nowMs freshId).2 = db := by
  have hb : (car.availability != "Available") = true := bne_iff_ne.mpr hneq
  unfold bookCar
  rw [h1, h2, h3, h4, h5, h6]
  simp only [hcar, hb, if_true]
  simp

theorem bookCar_unavailable_witness :
    (bookCar reqSample 7 dbRented 0 99).1.status = 400 ∧
      (bookCar reqSample 7 dbRented 0 99).1.message =
        "Car is not available for booking." ∧
      (bookCar reqSample 7 dbRented 0 99).2 = dbRented :=
  bookCar_unavailable reqSample 7 dbRented 0 99 1 2 ⟨2025, 6, 1⟩ ⟨2025, 6, 3⟩
    ⟨10, 0⟩ ⟨10, 0⟩ carRented rfl rfl rfl rfl rfl rfl (by decide) (by decide)

/-- Claim C6: a cancel request whose booking id is not matched by a
booking of the requesting user answers 404 and leaves the whole store
(cars and bookings) unchanged. -/
theorem cancelBooking_not_owner (db : DB) (bookingId userId : Nat)
    (h : ∀ b ∈ db.bookings, ¬(b.id = bookingId ∧ b.userId = userId)) :
    (cancelBooking db bookingId userId).1.status = 404 ∧
      (cancelBooking db bookingId userId).1.message =
        "Booking not found or unauthorized access." ∧
      (cancelBooking db bookingId userId).2 = db := by
  have hf : db.bookings.find?
      (fun b => b.id == bookingId && b.userId == userId) = none := by
    rw [List.find?_eq_none]
    intro b hb
    simpa using h b hb
  unfold cancelBooking
  rw [hf]
  exact ⟨rfl, rfl, rfl⟩

/-- Sample stored booking, owned by user 3, on car 1, 2025-06-01 to
2025-06-03, stored in the shapes `bookCar` writes. -/
def bookingSample : Booking :=
  { id := 5, carId := 1, userId := 3, showroomId := 2,
    rentalStartDate := ⟨2025, 6, 1⟩,
    rentalStartTime := TimeVal.t12 (formatTimeTo12Hour ⟨10, 0⟩),
    rentalEndDate := ⟨2025, 6, 3⟩,
    rentalEndTime := TimeVal.t12 (formatTimeTo12Hour ⟨10, 0⟩),
    totalPrice := 300 }

/-- Sample store holding the rented-out car and the sample booking. -/
def dbWithBooking : DB := { cars := [carRented], bookings := [bookingSample] }

theorem cancelBooking_not_owner_witness :
    (cancelBooking dbWithBooking 5 4).1.status = 404 ∧
      (cancelBooking dbWithBooking 5 4).1.message =
        "Booking not found or unauthorized access." ∧
      (cancelBooking dbWithBooking 5 4).2 = dbWithBooking :=
  cancelBooking_not_owner dbWithBooking 5 4 (by decide)

/-- Claim C9: when the booking and its car both resolve, `Return_car`
emits exactly one event, on the channel named by the car owner, with
the fixed payload, acknowledges with 200, and writes neither
collection. -/
theorem Return_car_notifies (db : DB) (bookingId : Nat) (b : Booking)
    (car : Car)
    (hb : db.bookings.find? (fun x => x.id == bookingId) = some b)
    (hc : db.cars.find? (fun c => c.id == b.carId) = some car) :
    (Return_car db bookingId).1.status = 200 ∧
      (Return_car db bookingId).1.message =
        "Return request sent to showroom  owner for approved" ∧
      (Return_car db bookingId).2.1 =
        [{ channel := "notification" ++ toString car.userId,
           message := "Car return request recieved" }] ∧
      (Return_car db bookingId).2.2 = db := by
  unfold Return_car
  simp only [hb, hc]
  simp

theorem Return_car_notifies_witness :
    (Return_car dbWithBooking 5).1.status = 200 ∧
      (Return_car dbWithBooking 5).1.message =
        "Return request sent to showroom  owner for approved" ∧
      (Return_car dbWithBooking 5).2.1 =
        [{ channel := "notification" ++ toString carRented.userId,
           message := "Car return request recieved" }] ∧
      (Return_car dbWithBooking 5).2.2 = dbWithBooking :=
  Return_car_notifies dbWithBooking 5 bookingSample carRented
    (by decide) (by decide)

/-- Claim C7: once the clock has reached the stored rental start of an
existing booking, both `updateBooking` and `extendBooking` answer 400
with the respective pre-start message and leave the store unchanged. -/
theorem update_extend_reject_after_start (db : DB) (bookingId : Nat)
    (ureq : UpdateReq) (ereq : ExtendReq) (nowMs : Int) (b : Booking)
    (hb : db.bookings.find? (fun x => x.id == bookingId) = some b)
    (hstart : parseStoredDT b.rentalStartDate b.rentalStartTime ≤ nowMs) :
    ((updateBooking db bookingId ureq nowMs).1.status = 400 ∧
      (updateBooking db bookingId ureq nowMs).1.message =
        "You can only update the booking before the rental start time." ∧
      (updateBooking db bookingId ureq nowMs).2 = db) ∧
    ((extendBooking db bookingId ereq nowMs).1.status = 400 ∧
      (extendBooking db bookingId ereq nowMs).1.message =
        "You can only extend the booking before the rental start time." ∧
      (extendBooking db bookingId ereq nowMs).2 = db) := by
  constructor
  · unfold updateBooking
    simp only [hb]
    rw [if_pos (by simp only [karachiShift]; omega)]
    exact ⟨rfl, rfl, rfl⟩
  · unfold extendBooking
    simp only [hb]
    rw [if_pos hstart]
    exact ⟨rfl, rfl, rfl⟩

theorem update_extend_reject_after_start_witness :
    ((updateBooking dbWithBooking 5
        { rentalStartDate := none, rentalEndDate := none,
          rentalStartTime := none, rentalEndTime := none }
        1754000000000).1.status = 400 ∧
      (updateBooking dbWithBooking 5
        { rentalStartDate := none, rentalEndDate := none,
          rentalStartTime := none, rentalEndTime := none }
        1754000000000).1.message =
        "You can only update the booking before the rental start time." ∧
      (updateBooking dbWithBooking 5
        { rentalStartDate := none, rentalEndDate := none,
          rentalStartTime := none, rentalEndTime := none }
        1754000000000).2 = dbWithBooking) ∧
    ((extendBooking dbWithBooking 5
        { rentalEndDate := none, rentalEndTime := none,
          protocol := "http", host := "localhost" }
        1754000000000).1.status = 400 ∧
      (extendBooking dbWithBooking 5
        { rentalEndDate := none, rentalEndTime := none,
          protocol := "http", host := "localhost" }
        1754000000000).1.message =
        "You can only extend the booking before the rental start time." ∧
      (extendBooking dbWithBooking 5
        { rentalEndDate := none, rentalEndTime := none,
          protocol := "http", host := "localhost" }
        1754000000000).2 = dbWithBooking) :=
  update_extend_reject_after_start dbWithBooking 5
    { rentalStartDate := none, rentalEndDate := none,
      rentalStartTime := none, rentalEndTime := none }
    { rentalEndDate := none, rentalEndTime := none,
      protocol := "http", host := "localhost" }
    1754000000000 bookingSample (by decide) (by decide)

/-- Claim C10: a pre-start update that supplies neither a new start
date nor a new start time recomputes the same start, so `updateBooking`
always answers a 400 validation error and writes nothing: end-only
updates are impossible. -/
theorem updateBooking_end_only_rejected (db : DB) (bookingId : Nat)
    (req : UpdateReq) (nowMs : Int) (b : Booking)
    (hb : db.bookings.find? (fun x => x.id == bookingId) = some b)
    (hfuture : nowMs < parseStoredDT b.rentalStartDate b.rentalStartTime)
    (hnoSD : req.rentalStartDate = none)
    (hnoST : req.rentalStartTime = none) :
    (updateBooking db bookingId req nowMs).1.status = 400 ∧
      (updateBooking db bookingId req nowMs).2 = db := by
  have hS : (applyBookingUpdates b req).rentalStartDate = b.rentalStartDate ∧
      (applyBookingUpdates b req).rentalStartTime = b.rentalStartTime := by
    unfold applyBookingUpdates
    rw [hnoSD, hnoST]
    cases req.rentalEndDate <;> cases req.rentalEndTime <;> simp
  unfold updateBooking
  simp only [hb]
  rw [if_neg (by simp only [karachiShift]; omega)]
  rw [hS.1, hS.2]
  by_cases hend : karachiShift (parseStoredDT
      (applyBookingUpdates b req).rentalEndDate
      (applyBookingUpdates b req).rentalEndTime) ≤
    karachiShift (parseStoredDT b.rentalStartDate b.rentalStartTime)
  · rw [if_pos hend]
    exact ⟨rfl, rfl⟩
  · rw [if_neg hend, if_pos (le_refl _)]
    exact ⟨rfl, rfl⟩

theorem updateBooking_end_only_rejected_witness :
    (updateBooking dbWithBooking 5
      { rentalStartDate := none, rentalEndDate := some ⟨2025, 6, 4⟩,
        rentalStartTime := none, rentalEndTime := some ⟨11, 0⟩ } 0).1.status
      = 400 ∧
    (updateBooking dbWithBooking 5
      { rentalStartDate := none, rentalEndDate := some ⟨2025, 6, 4⟩,
        rentalStartTime := none, rentalEndTime := some ⟨11, 0⟩ } 0).2
      = dbWithBooking :=
  updateBooking_end_only_rejected dbWithBooking 5
    { rentalStartDate := none, rentalEndDate := some ⟨2025, 6, 4⟩,
      rentalStartTime := none, rentalEndTime := some ⟨11, 0⟩ } 0
    bookingSample (by decide) (by decide) rfl rfl

theorem lookup_rentalStart_none (b : Booking) :
    lookupField (bookingToDoc b) "rentalStart" = none := by
  rfl

theorem lookup_rentalEnd_none (b : Booking) :
    lookupField (bookingToDoc b) "rentalEnd" = none := by
  rfl

theorem updateOverlap_doc_false (b : Booking) (selfId carId : Nat)
    (eMs sMs : Int) :
    docMatchesUpdateOverlap (bookingToDoc b) selfId carId eMs sMs = false := by
  simp [docMatchesUpdateOverlap, docLteInst, lookup_rentalStart_none]

theorem updateOverlap_find_none (l : List Booking) (selfId carId : Nat)
    (eMs sMs : Int) :
    (l.map bookingToDoc).find?
      (fun doc => docMatchesUpdateOverlap doc selfId carId eMs sMs) = none := by
  rw [List.find?_eq_none]
  intro doc hdoc
  rcases List.mem_map.mp hdoc with ⟨b, _, rfl⟩
  simp [updateOverlap_doc_false]

/-- Claim C2: the overlap re-check of `updateBooking` filters on the
field names `rentalStart` / `rentalEnd`, which no stored booking
document carries, so the filter matches no stored booking and
`updateBooking` can never answer the overlapping-dates conflict. -/
theorem updateBooking_overlap_check_void :
    (∀ (b : Booking) (selfId carId : Nat) (eMs sMs : Int),
        docMatchesUpdateOverlap (bookingToDoc b) selfId carId eMs sMs = false) ∧
      ∀ (db : DB) (bookingId : Nat) (req : UpdateReq) (nowMs : Int),
        (updateBooking db bookingId req nowMs).1.message ≠
          "The car is already booked for the selected dates." := by
  constructor
  · intro b selfId carId eMs sMs
    exact updateOverlap_doc_false b selfId carId eMs sMs
  · intro db bookingId req nowMs
    unfold updateBooking
    simp only [updateOverlap_find_none]
    repeat' split
    all_goals simp

theorem updateBooking_overlap_check_void_witness :
    docMatchesUpdateOverlap (bookingToDoc bookingSample) 5 1 0 0 = false ∧
      (updateBooking dbWithBooking 5
        { rentalStartDate := none, rentalEndDate := none,
          rentalStartTime := none, rentalEndTime := none } 0).1.message ≠
        "The car is already booked for the selected dates." :=
  ⟨updateBooking_overlap_check_void.1 bookingSample 5 1 0 0,
   updateBooking_overlap_check_void.2 dbWithBooking 5
     { rentalStartDate := none, rentalEndDate := none,
       rentalStartTime := none, rentalEndTime := none } 0⟩
